import Mathlib

/-!
Verification of the query-understanding and metrics core of the
ai-customer-support-system repository (backend/main.py,
backend/agents/orchestrator.py, backend/agents/analytics.py).

Embedding conventions:
- Python strings are `List Char` (`Str`); Python's `needle in hay` substring
  test is `hasSub`, and `str.lower()` is `lowr` (the repository only feeds the
  classifier ASCII text).  `hasSub_sound` relates `hasSub` to `List.IsInfix`.
- Quantities kept as Python floats (confidences, response times, ratings
  means) are embedded as exact rationals; `round(x, 2)` is `round2`, exact
  round-half-to-even on rationals.
- `datetime.utcnow()` timestamps are seconds since the epoch (`Nat`) and are
  explicit inputs of every state transition; `timestamp.isoformat()` and
  `datetime.fromisoformat` round-trip a timestamp unchanged, so records store
  the timestamp itself.
- The sentence-transformer embedding model is an external collaborator: for
  retrieval it is abstracted as the per-document cosine-similarity values it
  yields (`Option (Nat → ℚ)`, `none` when encoding fails and the surrounding
  `try/except` returns `[]`).
- Mutating methods of `AnalyticsManager` become functions
  `AnalyticsState → AnalyticsState`; Python dicts keyed by session id become
  `Str → Option Session`, and the `defaultdict(int)`/`defaultdict(list)`
  keyed by agent type become total functions from `AgentType`.
-/

/-- Character strings, as lists of characters. -/
abbrev Str := List Char

/-- The apostrophe character (several source phrases and templates contain
it). -/
def apos : Char := Char.ofNat 39

/-- `subAt needle hay`: `needle` is a prefix of `hay`. -/
def subAt : Str → Str → Bool
  | [], _ => true
  | _ :: _, [] => false
  | c :: cs, d :: ds => c == d && subAt cs ds

/-- `hasSub hay needle`: `needle` occurs contiguously in `hay`
(Python's `needle in hay` on strings). -/
def hasSub (hay needle : Str) : Bool :=
  match hay with
  | [] => needle.isEmpty
  | _ :: t => subAt needle hay || hasSub t needle

/-- Python `str.lower()` (the source only feeds it ASCII text). -/
def lowr (s : Str) : Str := s.map Char.toLower

/-- Query intents produced by the classifiers
(the source returns the strings `'technical'`, `'billing'`, `'general'`). -/
inductive Intent where
  | technical
  | billing
  | general
deriving DecidableEq

/-- Number of lexicon entries occurring in `q`, one count per entry
(the source loops `for phrase in ...: if phrase in query_lower: score += w`,
so each entry contributes at most once). -/
def hits (lexicon : List Str) (q : Str) : Nat :=
  lexicon.countP (fun p => hasSub q p)

/-- Generic context words shared by both classifiers
(`generic_words` in the source). -/
def generic_words : List Str :=
  ["issue", "problem", "question", "help", "support"].map String.data

/-- The `+3` domain-combination bonus: fires when some strong domain word
and some generic word both occur in `q`. -/
def comboBonus (strong : List Str) (q : Str) : Nat :=
  if (strong.any (fun w => hasSub q w)) && (generic_words.any (fun w => hasSub q w))
  then 3 else 0

/-- Strong technical indicator words used by the `+3` bonus
(both classifiers use the same list). -/
def techStrong : List Str :=
  ["technical", "login", "password", "access", "app", "application"].map String.data

/-- Strong billing indicator words used by the `+3` bonus. -/
def billStrong : List Str :=
  ["billing", "payment", "charge", "subscription", "money"].map String.data

/-- Tie-break technical indicators
(`['login', 'password', 'access', 'account', 'technical']`). -/
def tieTech : List Str :=
  ["login", "password", "access", "account", "technical"].map String.data

/-- Tie-break billing indicators
(`['billing', 'charge', 'payment', 'subscription', 'money']`). -/
def tieBill : List Str :=
  ["billing", "charge", "payment", "subscription", "money"].map String.data

namespace Orch

/-- `technical_phrases` of `CustomerServiceOrchestrator._classify_intent`. -/
def technical_phrases : List Str :=
  ["cannot log".data, "can".data ++ [apos] ++ "t log".data,
   "unable to access".data, "won".data ++ [apos] ++ "t load".data,
   "not loading".data, "application is".data, "app is".data,
   "showing error".data, "login issue".data, "technical issue".data,
   "technical problem".data]

/-- `billing_phrases` of `CustomerServiceOrchestrator._classify_intent`. -/
def billing_phrases : List Str :=
  ["charged twice", "billed twice", "double charge", "cancel subscription",
   "how do i cancel", "want to cancel", "subscription cost",
   "billing problem", "billing issue", "payment problem"].map String.data

/-- `technical_keywords` of `CustomerServiceOrchestrator._classify_intent`. -/
def technical_keywords : List Str :=
  ["login", "log in", "sign in", "access", "password", "account",
   "error", "bug", "not working", "broken", "crash", "slow",
   "technical", "application", "app", "reset", "unlock",
   "authenticate", "verification"].map String.data

/-- `billing_keywords` of `CustomerServiceOrchestrator._classify_intent`. -/
def billing_keywords : List Str :=
  ["billing", "payment", "charge", "charged", "invoice", "subscription",
   "refund", "cancel", "upgrade", "downgrade", "price", "cost",
   "twice", "double", "money", "credit card", "bank", "transaction"].map String.data

/-- Technical score of the lower-cased query: phrase hits weigh 5, the
domain-combination bonus weighs 3, keyword hits weigh 1 (the source
accumulates the three groups in sequence; addition is commutative). -/
def technicalScore (q : Str) : Nat :=
  5 * hits technical_phrases q + comboBonus techStrong q + hits technical_keywords q

/-- Billing score of the lower-cased query. -/
def billingScore (q : Str) : Nat :=
  5 * hits billing_phrases q + comboBonus billStrong q + hits billing_keywords q

/-- `CustomerServiceOrchestrator._classify_intent` (orchestrator.py lines
97-178): score both intents on the lower-cased query, pick the strictly
larger positive score, break positive ties by scanning strong technical
then strong billing indicators, and default to `general`. -/
def classify_intent (query : Str) : Intent :=
  let q := lowr query
  let ts := technicalScore q
  let bs := billingScore q
  if ts > bs ∧ ts > 0 then .technical
  else if bs > ts ∧ bs > 0 then .billing
  else if ts = bs ∧ ts > 0 then
    if tieTech.any (fun w => hasSub q w) then .technical
    else if tieBill.any (fun w => hasSub q w) then .billing
    else .general
  else .general

end Orch

namespace MainApp

/-- `technical_phrases` of `SimpleOrchestrator._classify_intent` (main.py). -/
def technical_phrases : List Str :=
  ["cannot log".data, "can".data ++ [apos] ++ "t log".data,
   "unable to access".data, "won".data ++ [apos] ++ "t load".data,
   "not loading".data, "application is".data, "app is".data,
   "showing error".data, "login issue".data, "technical issue".data]

/-- `billing_phrases` of `SimpleOrchestrator._classify_intent`. -/
def billing_phrases : List Str :=
  ["charged twice", "billed twice", "double charge", "cancel subscription",
   "how do i cancel", "want to cancel", "billing problem",
   "billing issue"].map String.data

/-- `technical_keywords` of `SimpleOrchestrator._classify_intent`. -/
def technical_keywords : List Str :=
  ["login", "log in", "sign in", "access", "password", "account",
   "error", "bug", "not working", "broken", "technical", "application",
   "app", "reset"].map String.data

/-- `billing_keywords` of `SimpleOrchestrator._classify_intent`. -/
def billing_keywords : List Str :=
  ["billing", "payment", "charge", "charged", "invoice", "subscription",
   "refund", "cancel", "upgrade", "downgrade", "price", "cost",
   "twice", "double", "money"].map String.data

/-- Technical score of `SimpleOrchestrator._classify_intent`. -/
def technicalScore (q : Str) : Nat :=
  5 * hits technical_phrases q + comboBonus techStrong q + hits technical_keywords q

/-- Billing score of `SimpleOrchestrator._classify_intent`. -/
def billingScore (q : Str) : Nat :=
  5 * hits billing_phrases q + comboBonus billStrong q + hits billing_keywords q

/-- `SimpleOrchestrator._classify_intent` (main.py lines 82-136): same
decision logic as the orchestrator classifier over slightly smaller
lexicons. -/
def classify_intent (query : Str) : Intent :=
  let q := lowr query
  let ts := technicalScore q
  let bs := billingScore q
  if ts > bs ∧ ts > 0 then .technical
  else if bs > ts ∧ bs > 0 then .billing
  else if ts = bs ∧ ts > 0 then
    if tieTech.any (fun w => hasSub q w) then .technical
    else if tieBill.any (fun w => hasSub q w) then .billing
    else .general
  else .general

end MainApp

/-- A knowledge-base document (`_setup_knowledge_base`); the pre-computed
embedding vector lives with the external embedding model, see `simKey` and
`retrieve_context`. -/
structure Doc where
  ident : Str
  title : Str
  content : Str
  category : Str
deriving DecidableEq

instance : Inhabited Doc := ⟨⟨[], [], [], []⟩⟩

/-- Ordering on `(index, similarity)` pairs that embeds
`similarities.sort(key=lambda x: x[1], reverse=True)`: Python's sort is
stable, so on the index-ascending input it produces exactly the list sorted
by descending similarity with equal similarities in index order — the unique
sorted permutation under this total relation. -/
def simKey (a b : Nat × ℚ) : Prop := b.2 < a.2 ∨ (a.2 = b.2 ∧ a.1 ≤ b.1)

instance decSimKey : DecidableRel simKey := fun a b =>
  decidable_of_iff (b.2 < a.2 ∨ (a.2 = b.2 ∧ a.1 ≤ b.1)) Iff.rfl

instance totalSimKey : IsTotal (Nat × ℚ) simKey := by
  constructor
  intro a b
  rw [simKey, simKey]
  rcases lt_trichotomy a.2 b.2 with h | h | h
  · exact Or.inr (Or.inl h)
  · rcases Nat.le_total a.1 b.1 with h1 | h1
    · exact Or.inl (Or.inr ⟨h, h1⟩)
    · exact Or.inr (Or.inr ⟨h.symm, h1⟩)
  · exact Or.inl (Or.inl h)

instance transSimKey : IsTrans (Nat × ℚ) simKey := by
  constructor
  intro a b c hab hbc
  rw [simKey] at *
  rcases hab with h | ⟨he, hn⟩ <;> rcases hbc with h2 | ⟨he2, hn2⟩
  · exact Or.inl (h2.trans h)
  · exact Or.inl (he2 ▸ h)
  · exact Or.inl (he ▸ h2)
  · exact Or.inr ⟨he.trans he2, hn.trans hn2⟩

/-- `CustomerServiceOrchestrator._retrieve_context` (orchestrator.py lines
180-205).  `sim` stands for the cosine similarities of the query embedding
with each document's pre-computed embedding, produced by the external
embedding model; `none` models an embedding failure, which the method's
`try/except` turns into an empty result.  An empty knowledge base returns
`[]` before any embedding is attempted. -/
def retrieve_context (sim : Option (Nat → ℚ)) (kb : List Doc) (top_k : Nat) :
    List Doc :=
  if kb = [] then []
  else
    match sim with
    | none => []
    | some f =>
      let pairs := (List.range kb.length).map (fun i => (i, f i))
      let sorted := pairs.insertionSort simKey
      (sorted.take top_k).map (fun p => kb.getD p.1 default)

/-- The `similarities[:top_k]` list of `(index, similarity)` pairs after the
stable descending sort. -/
def retrievedPairs (f : Nat → ℚ) (kb : List Doc) (top_k : Nat) : List (Nat × ℚ) :=
  (((List.range kb.length).map (fun i => (i, f i))).insertionSort simKey).take top_k

/-- Agent types appearing in the system (the orchestrator's error path also
produces `'error'`). -/
inductive AgentType where
  | technical
  | billing
  | general
  | error
deriving DecidableEq

/-- Result record of the three `handle_query` methods. -/
structure AgentResponse where
  response : Str
  agent_type : AgentType
  confidence : ℚ
  escalate : Bool
  suggested_actions : List Str
deriving DecidableEq

/-- `"\n".join(doc['content'] for doc in context)`. -/
def joinContents (context : List Doc) : Str :=
  List.intercalate ("\n".data) (context.map (fun d => d.content))

/-- Fixed text around the spliced context in the technical template. -/
def techCtxPre : Str :=
  "Based on our documentation, here".data ++ [apos]
    ++ "s how I can help with your technical issue:\n\n".data

/-- Fixed text after the spliced context in the technical template. -/
def techCtxSuf : Str :=
  "\n\nIf this doesn".data ++ [apos]
    ++ "t resolve your issue, I can escalate to our technical team.".data

/-- Technical-agent reply for empty context. -/
def techFallback : Str :=
  "I understand you".data ++ [apos]
    ++ "re experiencing a technical issue. Let me help troubleshoot this. Can you provide more details about the specific problem you".data
    ++ [apos] ++ "re encountering?".data

/-- `TechnicalSupportAgent.handle_query` (orchestrator.py lines 278-299).
The source tests `if context:` (non-empty) first; the branches are swapped
here around `context.isEmpty`. -/
def technical_handle_query (_query : Str) (context : List Doc)
    (_customer_id : Str) (priority : Str) : AgentResponse :=
  { response :=
      if context.isEmpty then techFallback
      else techCtxPre ++ joinContents context ++ techCtxSuf
    agent_type := .technical
    confidence := 85/100
    escalate := priority == ("urgent".data)
    suggested_actions :=
      ["Try the suggested solution".data, "Clear browser cache".data,
       "Contact technical team if issue persists".data] }

/-- Fixed text before the spliced context in the billing template. -/
def billCtxPre : Str :=
  "I can help you with your billing question. Here".data ++ [apos]
    ++ "s the relevant information:\n\n".data

/-- Fixed text after the spliced context in the billing template. -/
def billCtxSuf : Str :=
  "\n\nFor account-specific billing details, I may need to connect you with our billing team.".data

/-- Billing-agent empty-context reply, part before the interpolated
`customer_id`. -/
def billFallbackPre : Str :=
  "I".data ++ [apos] ++ "m here to help with your billing inquiry for customer ".data

/-- Billing-agent empty-context reply, part after the interpolated
`customer_id`. -/
def billFallbackSuf : Str :=
  ". I can assist with payment issues, subscription changes, and billing questions.".data

/-- `BillingAgent.handle_query` (orchestrator.py lines 305-326).  Note the
empty-context reply interpolates `customer_id`. -/
def billing_handle_query (query : Str) (context : List Doc)
    (customer_id : Str) (_priority : Str) : AgentResponse :=
  { response :=
      if context.isEmpty then billFallbackPre ++ customer_id ++ billFallbackSuf
      else billCtxPre ++ joinContents context ++ billCtxSuf
    agent_type := .billing
    confidence := 90/100
    escalate := hasSub (lowr query) ("refund".data) || hasSub (lowr query) ("cancel".data)
    suggested_actions :=
      ["Check account settings".data, "Review billing history".data,
       "Contact billing team for account changes".data] }

/-- Fixed text before the spliced context in the general template. -/
def genCtxPre : Str :=
  "Thank you for contacting support. I found some relevant information that might help:\n\n".data

/-- Fixed text after the spliced context in the general template. -/
def genCtxSuf : Str :=
  "\n\nIs there anything specific I can help you with today?".data

/-- General-agent reply for empty context. -/
def genFallback : Str :=
  "Thank you for contacting our support team. I".data ++ [apos]
    ++ "m here to help you with any questions or concerns you may have. How can I assist you today?".data

/-- `GeneralSupportAgent.handle_query` (orchestrator.py lines 332-353). -/
def general_handle_query (_query : Str) (context : List Doc)
    (_customer_id : Str) (priority : Str) : AgentResponse :=
  { response :=
      if context.isEmpty then genFallback
      else genCtxPre ++ joinContents context ++ genCtxSuf
    agent_type := .general
    confidence := 75/100
    escalate := priority == ("high".data) || priority == ("urgent".data)
    suggested_actions :=
      ["Provide more specific details".data, "Check our help documentation".data,
       "Contact specialized support if needed".data] }

/-- `self.agents.get(intent, self.agents['general'])` in
`process_query`: the deterministic intent-to-agent mapping. -/
def route_agent (intent : Intent) :
    Str → List Doc → Str → Str → AgentResponse :=
  match intent with
  | .technical => technical_handle_query
  | .billing => billing_handle_query
  | .general => general_handle_query

/-- Knowledge-base document 1 of `_setup_knowledge_base` (used as a concrete
input below). -/
def docLogin : Doc :=
  { ident := "1".data
    title := "Login Issues".data
    content := "If you cannot log in, try resetting your password. Click \"Forgot Password\" on the login page and follow the instructions.".data
    category := "technical".data }

/-- One record of the global query history (`query_data` built in
`AnalyticsManager.log_query`).  The source stores
`timestamp.isoformat()`; the embedding stores the timestamp itself. -/
structure QueryData where
  timestamp : Nat
  query : Str
  response : Str
  agent_type : AgentType
  confidence : ℚ
  response_time : ℚ
  customer_id : Str
  session_id : Str
  query_length : Nat
  response_length : Nat
deriving DecidableEq

/-- One per-agent metric sample appended by `log_query`. -/
structure MetricSample where
  confidence : ℚ
  response_time : ℚ
  timestamp : Nat
deriving DecidableEq

/-- Per-session state (`self.session_data[session_id]`).  The source dict
gains its `last_activity` key later in the same `log_query` call that
creates it, so the field is always present here. -/
structure Session where
  customer_id : Str
  start_time : Nat
  queries : List QueryData
  total_response_time : ℚ
  avg_confidence : ℚ
  last_activity : Nat
deriving DecidableEq

/-- One feedback record appended by `log_feedback`. -/
structure Feedback where
  session_id : Str
  rating : Int
  comment : Option Str
  timestamp : Nat
deriving DecidableEq

/-- The mutable state of `AnalyticsManager`: the bounded history deque, the
session dict, the per-agent metric lists, the feedback list and the
`system_metrics` dict flattened into fields.  `isInit` is the source's
flag set by the startup method. -/
structure AnalyticsState where
  query_history : List QueryData
  session_data : Str → Option Session
  agent_metrics : AgentType → List MetricSample
  feedback_data : List Feedback
  total_queries : Nat
  total_sessions : Nat
  avg_response_time : ℚ
  satisfaction_score : ℚ
  agent_distribution : AgentType → Nat
  isInit : Bool

/-- `AnalyticsManager.__init__` (analytics.py lines 19-31). -/
def initState : AnalyticsState :=
  { query_history := []
    session_data := fun _ => none
    agent_metrics := fun _ => []
    feedback_data := []
    total_queries := 0
    total_sessions := 0
    avg_response_time := 0
    satisfaction_score := 23/5
    agent_distribution := fun _ => 0
    isInit := false }

/-- The state right after the startup method ran `_load_historical_data`
(analytics.py lines 293-316): `system_metrics.update(sample_data)`.  The
source replaces the distribution `defaultdict` by a plain dict with only the
three seeded keys (so that a later increment of an unseeded key would raise
inside `log_query`'s guarded block); the claims below never exercise that
path, and the seeded map is embedded as a total function that is `0` on
`error`. -/
def seededState : AnalyticsState :=
  { initState with
    total_queries := 1247
    total_sessions := 423
    avg_response_time := 6/5
    satisfaction_score := 23/5
    agent_distribution := fun t =>
      match t with
      | .technical => 45
      | .billing => 30
      | .general => 25
      | .error => 0
    isInit := true }

/-- `statistics.mean`; total here (junk value `0` on `[]`), but every call
site in the source guards against the empty list. -/
def mean (l : List ℚ) : ℚ := l.sum / l.length

/-- Python's `l[-n:]`: the last `min n l.length` elements. -/
def lastN (n : Nat) (l : List α) : List α := l.drop (l.length - n)

/-- Appending to a `deque(maxlen=cap)`: the oldest elements are dropped once
the capacity is exceeded. -/
def dequeAppend (cap : Nat) (h : List α) (x : α) : List α :=
  let h2 := h ++ [x]
  if cap < h2.length then h2.drop (h2.length - cap) else h2

/-- Round half to even to the nearest integer (the tie-breaking rule of
Python's `round`, idealized over exact rationals). -/
def roundHalfEven (x : ℚ) : Int :=
  if x - ⌊x⌋ < 1/2 then ⌊x⌋
  else if (1 : ℚ)/2 < x - ⌊x⌋ then ⌊x⌋ + 1
  else if ⌊x⌋ % 2 = 0 then ⌊x⌋ else ⌊x⌋ + 1

/-- Python's `round(x, 2)`, idealized over exact rationals. -/
def round2 (x : ℚ) : ℚ := (roundHalfEven (100 * x) : ℚ) / 100

/-- The arguments of one `log_query` call, together with the
`datetime.utcnow()` value the call would observe. -/
structure LogQueryArgs where
  query : Str
  response : Str
  agent_type : AgentType
  confidence : ℚ
  response_time : ℚ
  customer_id : Str
  session_id : Str
  timestamp : Nat
deriving DecidableEq

/-- The `query_data` dict built at the top of `log_query`. -/
def mkQueryData (a : LogQueryArgs) : QueryData :=
  { timestamp := a.timestamp
    query := a.query
    response := a.response
    agent_type := a.agent_type
    confidence := a.confidence
    response_time := a.response_time
    customer_id := a.customer_id
    session_id := a.session_id
    query_length := a.query.length
    response_length := a.response.length }

/-- The metric sample appended to `agent_metrics[agent_type]`. -/
def mkSample (a : LogQueryArgs) : MetricSample :=
  { confidence := a.confidence, response_time := a.response_time, timestamp := a.timestamp }

/-- The value `_update_running_averages` (analytics.py lines 280-291) leaves
in `avg_response_time`: unchanged when the history (or its last-1000 slice)
is empty, else `round(mean(last 1000 response times), 2)`. -/
def newAvg (hist : List QueryData) (current : ℚ) : ℚ :=
  if hist = [] then current
  else if lastN 1000 hist = [] then current
  else round2 (mean ((lastN 1000 hist).map (fun q => q.response_time)))

/-- `_update_running_averages`: only `avg_response_time` is mutated. -/
def updateRunningAverages (st : AnalyticsState) : AnalyticsState :=
  { st with avg_response_time := newAvg st.query_history st.avg_response_time }

/-- `log_query` line 69: `self.query_history.append(query_data)`. -/
def histStep (a : LogQueryArgs) (st : AnalyticsState) : AnalyticsState :=
  { st with query_history := dequeAppend 10000 st.query_history (mkQueryData a) }

/-- `log_query` line 72: `total_queries += 1`. -/
def countStep (_a : LogQueryArgs) (st : AnalyticsState) : AnalyticsState :=
  { st with total_queries := st.total_queries + 1 }

/-- `log_query` line 73: `agent_distribution[agent_type] += 1`. -/
def distStep (a : LogQueryArgs) (st : AnalyticsState) : AnalyticsState :=
  { st with agent_distribution := fun t =>
      if t = a.agent_type then st.agent_distribution t + 1 else st.agent_distribution t }

/-- `log_query` lines 76-80: append to `agent_metrics[agent_type]`. -/
def metricStep (a : LogQueryArgs) (st : AnalyticsState) : AnalyticsState :=
  { st with agent_metrics := fun t =>
      if t = a.agent_type then st.agent_metrics t ++ [mkSample a] else st.agent_metrics t }

/-- The session-dict mutation of `log_query` lines 83-96: create the session
on first sight (with empty `queries` and zero totals), then append the
record, accumulate the response time and refresh `last_activity`. -/
def sessMapStep (m : Str → Option Session) (a : LogQueryArgs) : Str → Option Session :=
  let base : Session :=
    match m a.session_id with
    | none =>
      { customer_id := a.customer_id
        start_time := a.timestamp
        queries := []
        total_response_time := 0
        avg_confidence := 0
        last_activity := a.timestamp }
    | some s => s
  let s2 : Session :=
    { base with
      queries := base.queries ++ [mkQueryData a]
      total_response_time := base.total_response_time + a.response_time
      last_activity := a.timestamp }
  fun sid => if sid = a.session_id then some s2 else m sid

/-- `log_query` lines 83-96: the session update plus the
`total_sessions += 1` that fires when the session is new. -/
def sessStep (a : LogQueryArgs) (st : AnalyticsState) : AnalyticsState :=
  { st with
    session_data := sessMapStep st.session_data a
    total_sessions :=
      if (st.session_data a.session_id).isNone then st.total_sessions + 1
      else st.total_sessions }

/-- `log_query` line 99: `await self._update_running_averages()`. -/
def avgStep (_a : LogQueryArgs) (st : AnalyticsState) : AnalyticsState :=
  updateRunningAverages st

/-- `AnalyticsManager.log_query` (analytics.py lines 48-104): the five state
mutations followed by the rolling-average recomputation, in source order. -/
def log_query (a : LogQueryArgs) (st : AnalyticsState) : AnalyticsState :=
  updateRunningAverages (sessStep a (metricStep a (distStep a (countStep a (histStep a st)))))

/-- The sequential mutation steps of `log_query`, in source order.  A fault
raised inside the method's `try` block aborts the remaining steps; the
`except` handler swallows the exception, keeping whatever prefix of the
steps already ran. -/
def logQuerySteps : List (LogQueryArgs → AnalyticsState → AnalyticsState) :=
  [histStep, countStep, distStep, metricStep, sessStep, avgStep]

/-- The state `log_query` leaves behind when a fault occurs right after its
first `k` mutation steps (`k ≥ 6` is the fault-free run). -/
def logQueryUpTo (k : Nat) (a : LogQueryArgs) (st : AnalyticsState) : AnalyticsState :=
  (logQuerySteps.take k).foldl (fun s f => f a s) st

/-- The arguments of one `log_feedback` call, with the observed
`datetime.utcnow()`. -/
structure FeedbackArgs where
  session_id : Str
  rating : Int
  comment : Option Str
  timestamp : Nat
deriving DecidableEq

/-- The `feedback_data` dict built in `log_feedback`. -/
def mkFeedback (a : FeedbackArgs) : Feedback :=
  { session_id := a.session_id, rating := a.rating, comment := a.comment, timestamp := a.timestamp }

/-- `log_feedback` line 116: `self.feedback_data.append(...)`. -/
def fbAppendStep (a : FeedbackArgs) (st : AnalyticsState) : AnalyticsState :=
  { st with feedback_data := st.feedback_data ++ [mkFeedback a] }

/-- `log_feedback` lines 119-121: `if self.feedback_data:` recompute
`satisfaction_score` as the mean of all ratings. -/
def fbMeanStep (_a : FeedbackArgs) (st : AnalyticsState) : AnalyticsState :=
  if st.feedback_data = [] then st
  else { st with satisfaction_score := mean (st.feedback_data.map (fun f => (f.rating : ℚ))) }

/-- `AnalyticsManager.log_feedback` (analytics.py lines 106-126).  No
validation or clamping of `rating` happens anywhere in the method. -/
def log_feedback (a : FeedbackArgs) (st : AnalyticsState) : AnalyticsState :=
  fbMeanStep a (fbAppendStep a st)

/-- The sequential mutation steps of `log_feedback`, in source order (append
the record, then recompute the mean inside the same `try` block). -/
def logFeedbackSteps : List (FeedbackArgs → AnalyticsState → AnalyticsState) :=
  [fbAppendStep, fbMeanStep]

/-- The state `log_feedback` leaves behind when a fault occurs right after
its first `j` steps (`j ≥ 2` is the fault-free run). -/
def logFeedbackUpTo (j : Nat) (b : FeedbackArgs) (st : AnalyticsState) : AnalyticsState :=
  (logFeedbackSteps.take j).foldl (fun s f => f b s) st

/-- A sequence of `log_query` calls. -/
def applyQueries (rs : List LogQueryArgs) (st : AnalyticsState) : AnalyticsState :=
  rs.foldl (fun s a => log_query a s) st

/-- A sequence of `log_feedback` calls. -/
def applyFeedbacks (fs : List FeedbackArgs) (st : AnalyticsState) : AnalyticsState :=
  fs.foldl (fun s a => log_feedback a s) st

/-- The query records a call sequence generates. -/
def records (rs : List LogQueryArgs) : List QueryData := rs.map mkQueryData

/-- The session dict obtained by running only the session-update part of
every call — the reference value showing eviction from the global ring never
touches per-session state. -/
def sessionsSpec (rs : List LogQueryArgs) : Str → Option Session :=
  rs.foldl sessMapStep (fun _ => none)

/-- One entry of the `hourly_volume` list: the hour-truncated timestamp
(the source emits `hour.isoformat()`) and the query count of that hour. -/
structure HourBucket where
  hour : Int
  count : Nat
deriving DecidableEq

/-- `timestamp.replace(minute=0, second=0, microsecond=0)` on
seconds-since-epoch timestamps. -/
def hourFloor (t : Nat) : Int := ((t / 3600) * 3600 : Nat)

/-- `AnalyticsManager._get_recent_queries` (analytics.py lines 227-233):
keep history records strictly newer than `now - hours`. -/
def get_recent_queries (now : Nat) (hours : Nat) (st : AnalyticsState) : List QueryData :=
  st.query_history.filter (fun q => decide ((now : Int) - (hours : Int) * 3600 < (q.timestamp : Int)))

/-- `AnalyticsManager._calculate_hourly_volume` (analytics.py lines
235-255): bucket the given records by hour (`hourly_counts` defaultdict,
embedded as `countP`), emit the 24 buckets `now_hour - i` for `i = 0..23`
with zero-filled counts, oldest first (the built list is reversed). -/
def calculate_hourly_volume (now : Nat) (queries : List QueryData) : List HourBucket :=
  ((List.range 24).map (fun (i : Nat) =>
    ({ hour := hourFloor now - (i : Int) * 3600
       count := queries.countP
         (fun q => hourFloor q.timestamp == hourFloor now - (i : Int) * 3600) } : HourBucket))).reverse

/-- The fields of the `get_analytics` snapshot that the claims below touch
(`agent_performance`, `top_queries`, `recent_activity.active_sessions` and
the constant `system_health` strings are presentation-only and omitted). -/
structure AnalyticsData where
  total_queries : Nat
  total_sessions : Nat
  avg_response_time : ℚ
  satisfaction_score : ℚ
  agent_distribution : AgentType → Nat
  hourly_volume : List HourBucket
  last_24h_queries : Nat

/-- `AnalyticsManager.get_analytics` (analytics.py lines 128-187), restricted
to the modelled fields; `now` is the `datetime.utcnow()` the call observes. -/
def get_analytics (now : Nat) (st : AnalyticsState) : AnalyticsData :=
  { total_queries := st.total_queries
    total_sessions := st.total_sessions
    avg_response_time := st.avg_response_time
    satisfaction_score := st.satisfaction_score
    agent_distribution := st.agent_distribution
    hourly_volume := calculate_hourly_volume now (get_recent_queries now 24 st)
    last_24h_queries := (get_recent_queries now 24 st).length }

/-- A concrete `log_query` argument vector with the given response time and
timestamp, used by the concrete instances below. -/
def argT (rt : ℚ) (ts : Nat) : LogQueryArgs :=
  { query := "q".data
    response := "r".data
    agent_type := .technical
    confidence := 9/10
    response_time := rt
    customer_id := "c1".data
    session_id := "s1".data
    timestamp := ts }

/-- Three calls whose response times are 0, 0 and 1 second: their mean 1/3
is not representable with two decimals. -/
def c3args : List LogQueryArgs := [argT 0 0, argT 0 1, argT 1 2]

/-- A feedback call with the out-of-range rating 7. -/
def badFeedback : FeedbackArgs :=
  { session_id := "s1".data, rating := 7, comment := none, timestamp := 0 }

/-- A record logged at 01:40 on day 0 (timestamp 6000 s). -/
def c4record : QueryData := mkQueryData (argT 1 6000)

/-- An aggregator state holding exactly that record — reachable by one
`log_query` call at time 6000. -/
def c4state : AnalyticsState := { initState with query_history := [c4record] }

/-- The query text of the classifier counterexample: it contains the
technical phrase `app is`, no billing phrase, and eleven billing keywords. -/
def c5text : Str :=
  "App is payment charge invoice subscription refund upgrade downgrade price cost money bank".data

/-- Soundness of the prefix test behind `hasSub`. -/
theorem subAt_iff (n l : Str) : subAt n l = true ↔ n <+: l := by
  induction n generalizing l with
  | nil => simp [subAt]
  | cons c cs ih =>
    cases l with
    | nil => simp [subAt]
    | cons d ds => simp [subAt, ih, List.cons_prefix_cons]

/-- `hasSub` decides exactly Python's substring relation: `needle in hay`
holds iff `needle` is a contiguous infix of `hay`. -/
theorem hasSub_sound (l n : Str) : hasSub l n = true ↔ n <:+: l := by
  induction l with
  | nil => simp [hasSub, List.isEmpty_iff]
  | cons c t ih =>
    rw [hasSub]
    simp [subAt_iff, ih, List.infix_cons_iff]

/-- A lexicon with no matching entry scores zero hits. -/
theorem hits_eq_zero {lex : List Str} {q : Str}
    (h : ∀ p ∈ lex, hasSub q p = false) : hits lex q = 0 := by
  rw [hits, List.countP_eq_zero]
  intro a ha
  simp [h a ha]

/-- If none of the keywords matches and the strong words are all keywords,
the strong-word scan fails. -/
theorem strongAny_false {strong keywords : List Str} {q : Str}
    (hsub : ∀ w ∈ strong, w ∈ keywords)
    (hk : ∀ p ∈ keywords, hasSub q p = false) :
    strong.any (fun w => hasSub q w) = false := by
  rw [List.any_eq_false]
  intro w hw
  simp [hk w (hsub w hw)]

/-- The `+3` combination bonus cannot fire without a strong-word match. -/
theorem comboBonus_zero {strong keywords : List Str} {q : Str}
    (hsub : ∀ w ∈ strong, w ∈ keywords)
    (hk : ∀ p ∈ keywords, hasSub q p = false) :
    comboBonus strong q = 0 := by
  rw [comboBonus, strongAny_false hsub hk]
  simp

/-- A matching lexicon entry makes the hit count positive. -/
theorem hits_pos {lex : List Str} {q : Str}
    (h : lex.any (fun p => hasSub q p) = true) : 0 < hits lex q := by
  rw [hits, List.countP_pos_iff]
  exact List.any_eq_true.mp h

theorem lastN_length (n : Nat) (l : List α) : (lastN n l).length = min l.length n := by
  rw [lastN, List.length_drop]
  omega

theorem lastN_of_le {n : Nat} {l : List α} (h : l.length ≤ n) : lastN n l = l := by
  rw [lastN]
  have : l.length - n = 0 := by omega
  rw [this, List.drop_zero]

theorem dequeAppend_length (cap : Nat) (l : List α) (x : α) :
    (dequeAppend cap l x).length = min (l.length + 1) cap := by
  rw [dequeAppend]
  split
  · rename_i h
    rw [List.length_drop] at *
    simp [List.length_append] at *
    omega
  · rename_i h
    simp [List.length_append] at *
    omega

/-- Appending through the capacity-`cap` deque keeps exactly the last `cap`
elements. -/
theorem dequeAppend_lastN (cap : Nat) (l : List α) (x : α) :
    dequeAppend cap (lastN cap l) x = lastN cap (l ++ [x]) := by
  rcases Nat.lt_or_ge l.length cap with hc | hc
  · rw [lastN_of_le (by omega), lastN_of_le (by simp; omega), dequeAppend]
    rw [if_neg (by simp; omega)]
  · have hlen2 : (lastN cap l).length = cap := by
      rw [lastN_length]
      omega
    rw [dequeAppend]
    simp only [List.length_append, hlen2, List.length_singleton]
    rw [if_pos (by omega)]
    by_cases hcap : cap = 0
    · subst hcap
      rw [lastN, lastN]
      simp [List.length_append]
    · have h1 : (1:Nat) ≤ (lastN cap l).length := by omega
      have e1 : cap + 1 - cap = 1 := by omega
      rw [e1, List.drop_append_of_le_length h1]
      rw [lastN, List.drop_drop, lastN, List.length_append, List.length_singleton]
      have e2 : l.length - cap + 1 = l.length + 1 - cap := by omega
      rw [e2]
      rw [List.drop_append_of_le_length (by omega)]

theorem lastN_lastN {m n : Nat} (h : m ≤ n) (l : List α) :
    lastN m (lastN n l) = lastN m l := by
  rw [lastN, lastN, lastN, List.drop_drop, List.length_drop]
  congr 1
  omega

theorem lastN_ne_nil {n : Nat} {l : List α} (hn : 0 < n) (hl : l ≠ []) :
    lastN n l ≠ [] := by
  have h1 : 0 < l.length := List.length_pos.mpr hl
  have h2 : 0 < (lastN n l).length := by
    rw [lastN_length]
    omega
  exact List.length_pos.mp h2

theorem lq_history (a : LogQueryArgs) (st : AnalyticsState) :
    (log_query a st).query_history = dequeAppend 10000 st.query_history (mkQueryData a) := rfl

theorem lq_totq (a : LogQueryArgs) (st : AnalyticsState) :
    (log_query a st).total_queries = st.total_queries + 1 := rfl

theorem lq_dist (a : LogQueryArgs) (st : AnalyticsState) :
    (log_query a st).agent_distribution = fun t =>
      if t = a.agent_type then st.agent_distribution t + 1 else st.agent_distribution t := rfl

theorem lq_metrics (a : LogQueryArgs) (st : AnalyticsState) :
    (log_query a st).agent_metrics = fun t =>
      if t = a.agent_type then st.agent_metrics t ++ [mkSample a] else st.agent_metrics t := rfl

theorem lq_sessions (a : LogQueryArgs) (st : AnalyticsState) :
    (log_query a st).session_data = sessMapStep st.session_data a := rfl

theorem lq_tots (a : LogQueryArgs) (st : AnalyticsState) :
    (log_query a st).total_sessions =
      if (st.session_data a.session_id).isNone then st.total_sessions + 1
      else st.total_sessions := rfl

theorem lq_fb (a : LogQueryArgs) (st : AnalyticsState) :
    (log_query a st).feedback_data = st.feedback_data := rfl

theorem lq_sat (a : LogQueryArgs) (st : AnalyticsState) :
    (log_query a st).satisfaction_score = st.satisfaction_score := rfl

theorem lq_avg (a : LogQueryArgs) (st : AnalyticsState) :
    (log_query a st).avg_response_time =
      newAvg (dequeAppend 10000 st.query_history (mkQueryData a)) st.avg_response_time := rfl

theorem applyQueries_snoc (rs : List LogQueryArgs) (a : LogQueryArgs) (st : AnalyticsState) :
    applyQueries (rs ++ [a]) st = log_query a (applyQueries rs st) := by
  rw [applyQueries, List.foldl_append]
  rfl

theorem sessionsSpec_snoc (rs : List LogQueryArgs) (a : LogQueryArgs) :
    sessionsSpec (rs ++ [a]) = sessMapStep (sessionsSpec rs) a := by
  rw [sessionsSpec, List.foldl_append]
  rfl

theorem foldl_sessMapStep_none (rs : List LogQueryArgs) :
    ∀ (m : Str → Option Session) (sid : Str),
      (rs.foldl sessMapStep m) sid = none ↔
        (m sid = none ∧ sid ∉ rs.map (fun a => a.session_id)) := by
  induction rs with
  | nil => simp
  | cons a rs ih =>
    intro m sid
    rw [List.foldl_cons, ih]
    constructor
    · rintro ⟨h1, h2⟩
      rw [sessMapStep] at h1
      simp only at h1
      by_cases hsid : sid = a.session_id
      · rw [if_pos hsid] at h1
        exact absurd h1 (by simp)
      · rw [if_neg hsid] at h1
        refine ⟨h1, ?_⟩
        simp only [List.map_cons, List.mem_cons]
        rintro (h | h)
        · exact hsid h
        · exact h2 h
    · rintro ⟨h1, h2⟩
      simp only [List.map_cons, List.mem_cons] at h2
      push_neg at h2
      refine ⟨?_, h2.2⟩
      rw [sessMapStep]
      simp only
      rw [if_neg h2.1]
      exact h1

/-- A session id is absent from the session dict exactly when no logged call
used it. -/
theorem sessionsSpec_none (rs : List LogQueryArgs) (sid : Str) :
    sessionsSpec rs sid = none ↔ sid ∉ rs.map (fun a => a.session_id) := by
  rw [sessionsSpec, foldl_sessMapStep_none]
  simp

/-- Closed form of every component of the aggregator state after a sequence
of `log_query` calls from a state with empty history, sessions and metrics:
the history is the last 10000 records, and every counter, per-agent
sequence, session entry and the rolling average are functions of the full
call sequence alone — eviction from the ring never reaches them. -/
theorem applyQueries_spec (st0 : AnalyticsState)
    (h0 : st0.query_history = [])
    (hs0 : ∀ sid, st0.session_data sid = none)
    (hm0 : ∀ t, st0.agent_metrics t = []) :
    ∀ rs : List LogQueryArgs,
      (applyQueries rs st0).query_history = lastN 10000 (records rs)
      ∧ (applyQueries rs st0).total_queries = st0.total_queries + rs.length
      ∧ (∀ t, (applyQueries rs st0).agent_distribution t
            = st0.agent_distribution t + rs.countP (fun a => a.agent_type == t))
      ∧ (∀ t, (applyQueries rs st0).agent_metrics t
            = (rs.filter (fun a => a.agent_type == t)).map mkSample)
      ∧ ((applyQueries rs st0).session_data = sessionsSpec rs)
      ∧ (applyQueries rs st0).total_sessions
            = st0.total_sessions + (rs.map (fun a => a.session_id)).toFinset.card
      ∧ (applyQueries rs st0).avg_response_time
            = (if rs = [] then st0.avg_response_time
               else round2 (mean ((lastN 1000 (records rs)).map (fun q => q.response_time))))
      ∧ (applyQueries rs st0).satisfaction_score = st0.satisfaction_score
      ∧ (applyQueries rs st0).feedback_data = st0.feedback_data := by
  intro rs
  induction rs using List.reverseRecOn with
  | nil =>
    refine ⟨?_, ?_, ?_, ?_, ?_, ?_, ?_, ?_, ?_⟩
    · rw [applyQueries, List.foldl_nil, h0, records, List.map_nil, lastN]
      rfl
    · rw [applyQueries, List.foldl_nil]
      rfl
    · intro t
      rw [applyQueries, List.foldl_nil, List.countP_nil]
      simp
    · intro t
      rw [applyQueries, List.foldl_nil, List.filter_nil, List.map_nil]
      exact hm0 t
    · rw [applyQueries, List.foldl_nil, sessionsSpec, List.foldl_nil]
      funext sid
      exact hs0 sid
    · rw [applyQueries, List.foldl_nil]
      simp
    · rw [applyQueries, List.foldl_nil, if_pos rfl]
    · rfl
    · rfl
  | append_singleton rs a ih =>
    obtain ⟨ihH, ihQ, ihD, ihM, ihS, ihTS, ihA, ihSat, ihFb⟩ := ih
    rw [applyQueries_snoc]
    have hrecords : records (rs ++ [a]) = records rs ++ [mkQueryData a] := by
      rw [records, List.map_append]
      rfl
    refine ⟨?_, ?_, ?_, ?_, ?_, ?_, ?_, ?_, ?_⟩
    · rw [lq_history, ihH, hrecords, dequeAppend_lastN]
    · rw [lq_totq, ihQ, List.length_append]
      simp
      omega
    · intro t
      rw [lq_dist]
      simp only
      rw [List.countP_append, List.countP_cons, List.countP_nil]
      by_cases h : t = a.agent_type
      · rw [if_pos h, ihD, if_pos (by simp [h])]
        omega
      · rw [if_neg h, ihD, if_neg (by simp; exact fun hh => h hh.symm)]
        omega
    · intro t
      rw [lq_metrics]
      simp only
      rw [List.filter_append, List.map_append]
      by_cases h : t = a.agent_type
      · rw [if_pos h, ihM]
        congr 1
        rw [List.filter_cons]
        rw [if_pos (by simp [h])]
        rfl
      · rw [if_neg h, ihM]
        have : List.filter (fun x => x.agent_type == t) [a] = [] := by
          rw [List.filter_cons]
          rw [if_neg (by simp; exact fun hh => h hh.symm)]
          rfl
        rw [this, List.map_nil, List.append_nil]
    · rw [lq_sessions, ihS, sessionsSpec_snoc]
    · rw [lq_tots, ihS]
      rw [List.map_append, List.toFinset_append]
      simp only [List.map_cons, List.map_nil]
      have hunion : (rs.map (fun a => a.session_id)).toFinset ∪ [a.session_id].toFinset
          = insert a.session_id (rs.map (fun a => a.session_id)).toFinset := by
        rw [Finset.union_comm]
        simp [Finset.insert_eq]
      rw [hunion]
      by_cases hmem : a.session_id ∈ rs.map (fun a => a.session_id)
      · have h1 : ¬ (sessionsSpec rs a.session_id = none) := by
          rw [sessionsSpec_none]
          simp [hmem]
        have h2 : ¬ (sessionsSpec rs a.session_id).isNone := by
          simpa [Option.isNone_iff_eq_none] using h1
        rw [if_neg h2, ihTS, Finset.insert_eq_self.mpr (List.mem_toFinset.mpr hmem)]
      · have h1 : sessionsSpec rs a.session_id = none := (sessionsSpec_none rs _).mpr hmem
        have h2 : (sessionsSpec rs a.session_id).isNone := by simp [h1]
        rw [if_pos h2, ihTS,
          Finset.card_insert_of_not_mem (fun hc => hmem (List.mem_toFinset.mp hc))]
        omega
    · rw [lq_avg, ihH, dequeAppend_lastN, ← hrecords]
      have hne : records (rs ++ [a]) ≠ [] := by
        rw [hrecords]
        simp
      have hne2 : lastN 10000 (records (rs ++ [a])) ≠ [] :=
        lastN_ne_nil (by omega) hne
      rw [newAvg, if_neg hne2,
        if_neg (lastN_ne_nil (by omega) hne2),
        lastN_lastN (by omega), if_neg (by simp)]
    · rw [lq_sat, ihSat]
    · rw [lq_fb, ihFb]

theorem lf_fb (a : FeedbackArgs) (st : AnalyticsState) :
    (log_feedback a st).feedback_data = st.feedback_data ++ [mkFeedback a] := by
  rw [log_feedback, fbMeanStep]
  split <;> rfl

theorem lf_sat (a : FeedbackArgs) (st : AnalyticsState) :
    (log_feedback a st).satisfaction_score
      = mean ((st.feedback_data ++ [mkFeedback a]).map (fun f => (f.rating : ℚ))) := by
  rw [log_feedback, fbMeanStep]
  rw [if_neg (by simp [fbAppendStep])]
  rfl

theorem lf_hist (a : FeedbackArgs) (st : AnalyticsState) :
    (log_feedback a st).query_history = st.query_history := by
  rw [log_feedback, fbMeanStep]
  split <;> rfl

theorem lf_totq (a : FeedbackArgs) (st : AnalyticsState) :
    (log_feedback a st).total_queries = st.total_queries := by
  rw [log_feedback, fbMeanStep]
  split <;> rfl

theorem lf_tots (a : FeedbackArgs) (st : AnalyticsState) :
    (log_feedback a st).total_sessions = st.total_sessions := by
  rw [log_feedback, fbMeanStep]
  split <;> rfl

theorem lf_sess (a : FeedbackArgs) (st : AnalyticsState) :
    (log_feedback a st).session_data = st.session_data := by
  rw [log_feedback, fbMeanStep]
  split <;> rfl

theorem lf_metrics (a : FeedbackArgs) (st : AnalyticsState) :
    (log_feedback a st).agent_metrics = st.agent_metrics := by
  rw [log_feedback, fbMeanStep]
  split <;> rfl

theorem lf_dist (a : FeedbackArgs) (st : AnalyticsState) :
    (log_feedback a st).agent_distribution = st.agent_distribution := by
  rw [log_feedback, fbMeanStep]
  split <;> rfl

theorem lf_avg (a : FeedbackArgs) (st : AnalyticsState) :
    (log_feedback a st).avg_response_time = st.avg_response_time := by
  rw [log_feedback, fbMeanStep]
  split <;> rfl

theorem applyFeedbacks_snoc (fs : List FeedbackArgs) (a : FeedbackArgs) (st : AnalyticsState) :
    applyFeedbacks (fs ++ [a]) st = log_feedback a (applyFeedbacks fs st) := by
  rw [applyFeedbacks, List.foldl_append]
  rfl

/-- Closed form of the aggregator state after a sequence of `log_feedback`
calls: the records accumulate unconditionally (no validation anywhere), the
satisfaction score becomes the mean of all ratings once at least one record
exists, and nothing else moves. -/
theorem applyFeedbacks_spec (st0 : AnalyticsState) :
    ∀ fs : List FeedbackArgs,
      (applyFeedbacks fs st0).feedback_data = st0.feedback_data ++ fs.map mkFeedback
      ∧ (applyFeedbacks fs st0).satisfaction_score
          = (if fs = [] then st0.satisfaction_score
             else mean ((st0.feedback_data ++ fs.map mkFeedback).map (fun f => (f.rating : ℚ))))
      ∧ (applyFeedbacks fs st0).query_history = st0.query_history
      ∧ (applyFeedbacks fs st0).total_queries = st0.total_queries
      ∧ (applyFeedbacks fs st0).total_sessions = st0.total_sessions
      ∧ (applyFeedbacks fs st0).session_data = st0.session_data
      ∧ (applyFeedbacks fs st0).agent_metrics = st0.agent_metrics
      ∧ (applyFeedbacks fs st0).agent_distribution = st0.agent_distribution
      ∧ (applyFeedbacks fs st0).avg_response_time = st0.avg_response_time := by
  intro fs
  induction fs using List.reverseRecOn with
  | nil =>
    refine ⟨by simp [applyFeedbacks], by simp [applyFeedbacks], ?_, ?_, ?_, ?_, ?_, ?_, ?_⟩ <;> rfl
  | append_singleton fs a ih =>
    obtain ⟨ihF, ihS, ihH, ihQ, ihT, ihSe, ihM, ihD, ihA⟩ := ih
    rw [applyFeedbacks_snoc]
    refine ⟨?_, ?_, ?_, ?_, ?_, ?_, ?_, ?_, ?_⟩
    · rw [lf_fb, ihF, List.map_append, List.map_cons, List.map_nil, List.append_assoc]
    · rw [lf_sat, ihF, if_neg (by simp)]
      congr 1
      simp [List.map_append, List.append_assoc]
    · rw [lf_hist, ihH]
    · rw [lf_totq, ihQ]
    · rw [lf_tots, ihT]
    · rw [lf_sess, ihSe]
    · rw [lf_metrics, ihM]
    · rw [lf_dist, ihD]
    · rw [lf_avg, ihA]

theorem hourFloor_mod (t : Nat) : hourFloor t % 3600 = 0 := by
  rw [hourFloor]
  omega

/-- Summing the indicator of `d = i * 3600` over `i < n` counts whether `d`
is a non-negative multiple of 3600 below `n * 3600`. -/
theorem indicator_sum (n : Nat) (d : Int) :
    ((List.range n).map (fun (i : Nat) => if d = (i : Int) * 3600 then (1:Nat) else 0)).sum
      = if 0 ≤ d ∧ d ≤ ((n : Int) - 1) * 3600 ∧ d % 3600 = 0 then 1 else 0 := by
  induction n with
  | zero =>
    simp only [List.range_zero, List.map_nil, List.sum_nil]
    rw [if_neg]
    push_cast
    omega
  | succ n ih =>
    rw [List.range_succ, List.map_append, List.sum_append, ih]
    simp only [List.map_cons, List.map_nil, List.sum_cons, List.sum_nil]
    split_ifs <;> push_cast at * <;> omega

/-- The 24 hour-bucket counts of `_calculate_hourly_volume` sum to the
number of records whose hour-truncated timestamp falls among the 24
produced hours (for an hour-aligned reference hour `H`). -/
theorem countP_buckets (H : Int) (hH : H % 3600 = 0) (l : List QueryData) :
    ((List.range 24).map
        (fun (i : Nat) => l.countP (fun q => hourFloor q.timestamp == H - (i : Int) * 3600))).sum
      = l.countP (fun q => decide (H - 23 * 3600 ≤ hourFloor q.timestamp)
          && decide (hourFloor q.timestamp ≤ H)) := by
  induction l with
  | nil => simp
  | cons q l ih =>
    have hx : hourFloor q.timestamp % 3600 = 0 := hourFloor_mod _
    have e1 : ∀ i ∈ List.range 24,
        (if (hourFloor q.timestamp == H - (i : Int) * 3600) = true then (1:Nat) else 0)
          = (if H - hourFloor q.timestamp = (i : Int) * 3600 then (1:Nat) else 0) := by
      intro i _
      apply if_congr ?_ rfl rfl
      rw [beq_iff_eq]
      constructor <;> intro h <;> omega
    have hz : ((List.range 24).map (fun (i : Nat) =>
        if (hourFloor q.timestamp == H - (i : Int) * 3600) = true then (1:Nat) else 0)).sum
        = if (decide (H - 23 * 3600 ≤ hourFloor q.timestamp)
            && decide (hourFloor q.timestamp ≤ H)) = true then (1:Nat) else 0 := by
      rw [List.map_congr_left e1, indicator_sum 24 (H - hourFloor q.timestamp)]
      simp only [Bool.and_eq_true, decide_eq_true_eq]
      split_ifs <;> push_cast at * <;> omega
    simp only [List.countP_cons]
    rw [List.sum_map_add, ih, hz]

/-- C1: both intent classifiers return the specified result on each of the
five example inputs: `technical`, `billing`, `general`, `billing` (the
billing phrase weight dominates), `technical` (the technical phrase weight
dominates). -/
theorem c1_classifier_examples :
    Orch.classify_intent ("I cannot log into my account".data) = .technical
    ∧ Orch.classify_intent ("I was charged twice this month".data) = .billing
    ∧ Orch.classify_intent ("".data) = .general
    ∧ Orch.classify_intent ("I have a billing problem with login".data) = .billing
    ∧ Orch.classify_intent ("Login issue with payment".data) = .technical
    ∧ MainApp.classify_intent ("I cannot log into my account".data) = .technical
    ∧ MainApp.classify_intent ("I was charged twice this month".data) = .billing
    ∧ MainApp.classify_intent ("".data) = .general
    ∧ MainApp.classify_intent ("I have a billing problem with login".data) = .billing
    ∧ MainApp.classify_intent ("Login issue with payment".data) = .technical := by
  decide

/-- C2: after any sequence of `log_query` calls the global history holds the
last `min N 10000` records in insertion order (so inserting 10001 records
leaves exactly the last 10000, the first-inserted record dropped), while
`total_queries`, `agent_distribution`, the per-agent metric sequences, the
per-session states and the session count are functions of the full call
sequence alone — unaffected by eviction. -/
theorem c2_ring_buffer (rs : List LogQueryArgs) :
    (applyQueries rs initState).query_history = lastN 10000 (records rs)
    ∧ (applyQueries rs initState).query_history.length = min rs.length 10000
    ∧ (rs.length = 10001 →
        (applyQueries rs initState).query_history = (records rs).drop 1)
    ∧ (applyQueries rs initState).total_queries = rs.length
    ∧ (∀ t, (applyQueries rs initState).agent_distribution t
          = rs.countP (fun a => a.agent_type == t))
    ∧ (∀ t, (applyQueries rs initState).agent_metrics t
          = (rs.filter (fun a => a.agent_type == t)).map mkSample)
    ∧ (applyQueries rs initState).session_data = sessionsSpec rs
    ∧ (applyQueries rs initState).total_sessions
          = (rs.map (fun a => a.session_id)).toFinset.card := by
  obtain ⟨hH, hQ, hD, hM, hS, hTS, _, _, _⟩ :=
    applyQueries_spec initState rfl (fun _ => rfl) (fun _ => rfl) rs
  refine ⟨hH, ?_, ?_, ?_, fun t => ?_, hM, hS, ?_⟩
  · rw [hH, lastN_length, records, List.length_map]
  · intro hlen
    rw [hH, lastN, records, List.length_map, hlen]
  · rw [hQ]
    simp [initState]
  · rw [hD t]
    simp [initState]
  · rw [hTS]
    simp [initState]

/-- Witness for C2 at a concrete 10001-element call sequence. -/
theorem c2_witness :
    (List.replicate 10001 (argT 1 0)).length = 10001
    ∧ (applyQueries (List.replicate 10001 (argT 1 0)) initState).query_history
        = (records (List.replicate 10001 (argT 1 0))).drop 1 :=
  ⟨by rw [List.length_replicate],
    (c2_ring_buffer (List.replicate 10001 (argT 1 0))).2.2.1 (by rw [List.length_replicate])⟩

/-- C3 counterexample: after three calls with response times 0, 0, 1 the
stored `avg_response_time` is `round(1/3, 2) = 0.33`, not the arithmetic
mean 1/3 the claim requires — the code rounds to two decimals. -/
theorem c3_counterexample :
    (applyQueries c3args initState).avg_response_time = 33/100
    ∧ mean ((records c3args).map (fun q => q.response_time)) = 1/3
    ∧ (33 : ℚ)/100 ≠ 1/3 := by
  have hmean : mean ((records c3args).map (fun q => q.response_time)) = 1/3 := by
    show mean [(0:ℚ), 0, 1] = 1/3
    rw [mean]
    simp [List.sum_cons]
  have hround : round2 ((1:ℚ)/3) = 33/100 := by
    have hfloor : ⌊(100:ℚ) * (1/3)⌋ = 33 := by
      rw [Int.floor_eq_iff]
      constructor <;> norm_num
    rw [round2, roundHalfEven, hfloor, if_pos (by norm_num)]
    norm_num
  obtain ⟨_, _, _, _, _, _, hA, _, _⟩ :=
    applyQueries_spec initState rfl (fun _ => rfl) (fun _ => rfl) c3args
  refine ⟨?_, hmean, by norm_num⟩
  rw [hA, if_neg (by simp [c3args]),
    lastN_of_le (by rw [records, List.length_map]; norm_num [c3args]), hmean, hround]

/-- C3 as amended: after every non-empty sequence of `N` `log_query` calls
the `avg_response_time` metric equals the arithmetic mean of the response
times of all `N` records when `N ≤ 1000`, and of only the most recent 1000
records when `N > 1000` — in both cases rounded to two decimal places
(round half to even), which is the only deviation from the original
claim. -/
theorem c3_rolling_average (rs : List LogQueryArgs) (hne : rs ≠ []) :
    ((applyQueries rs initState).avg_response_time
        = round2 (mean ((lastN 1000 (records rs)).map (fun q => q.response_time))))
    ∧ (rs.length ≤ 1000 →
        (applyQueries rs initState).avg_response_time
          = round2 (mean ((records rs).map (fun q => q.response_time))))
    ∧ (1000 < rs.length →
        (applyQueries rs initState).avg_response_time
          = round2 (mean ((lastN 1000 (records rs)).map (fun q => q.response_time)))) := by
  obtain ⟨_, _, _, _, _, _, hA, _, _⟩ :=
    applyQueries_spec initState rfl (fun _ => rfl) (fun _ => rfl) rs
  rw [hA, if_neg hne]
  refine ⟨rfl, ?_, fun _ => rfl⟩
  intro hlen
  rw [lastN_of_le (by rw [records, List.length_map]; omega)]

/-- Witness for C3 at a single concrete call. -/
theorem c3_witness :
    (applyQueries [argT 1 0] initState).avg_response_time
      = round2 (mean ((records [argT 1 0]).map (fun q => q.response_time))) :=
  (c3_rolling_average [argT 1 0] (by simp)).2.1 (by simp)

/-- C4 counterexample: at current time 25:30 h (91800 s) with one record
logged at 01:40 h (6000 s), the record lies within the trailing 24 hours
(so `_get_recent_queries` keeps it) but its hour bucket 01:00 h is older
than the 24 produced buckets (02:00 h .. 25:00 h), so the hourly-volume
counts sum to 0, not 1 — the claimed sum equality fails whenever the
current time is not hour-aligned and a record sits in the partial oldest
hour. -/
theorem c4_counterexample :
    ((get_analytics 91800 c4state).hourly_volume.map (fun b => b.count)).sum = 0
    ∧ (get_recent_queries 91800 24 c4state).length = 1 := by
  decide

/-- C4 as amended: for every aggregator state and current time the
`hourly_volume` snapshot has exactly 24 entries whose hour boundaries are
`now_hour - 23 h, ..., now_hour` in chronological order — strictly
increasing and hour-aligned — each entry counting exactly the trailing-24h
records of its own hour (zero-filled when none); the counts sum to the
number of history records that are both inside the trailing 24 hours and
whose hour bucket is among the 24 produced ones (records of the partial
oldest hour are filtered in but fall outside every bucket, which is the
only deviation from the original claim). -/
theorem c4_hourly_volume (st : AnalyticsState) (now : Nat) :
    (get_analytics now st).hourly_volume.length = 24
    ∧ (get_analytics now st).hourly_volume.map (fun b => b.hour)
        = ((List.range 24).map (fun (i : Nat) => hourFloor now - (i : Int) * 3600)).reverse
    ∧ List.Pairwise (fun a b : HourBucket => a.hour < b.hour) (get_analytics now st).hourly_volume
    ∧ ((get_analytics now st).hourly_volume.map (fun b => b.hour)).all
        (fun h => decide (h % 3600 = 0)) = true
    ∧ (get_analytics now st).hourly_volume.all
        (fun b => b.count == (get_recent_queries now 24 st).countP
            (fun q => hourFloor q.timestamp == b.hour)) = true
    ∧ ((get_analytics now st).hourly_volume.map (fun b => b.count)).sum
        = st.query_history.countP
            (fun q => (decide (hourFloor now - 23 * 3600 ≤ hourFloor q.timestamp)
                && decide (hourFloor q.timestamp ≤ hourFloor now))
                && decide ((now : Int) - ((24:Nat) : Int) * 3600 < (q.timestamp : Int))) := by
  have hhv : (get_analytics now st).hourly_volume
      = ((List.range 24).map (fun (i : Nat) =>
          ({ hour := hourFloor now - (i : Int) * 3600
             count := (get_recent_queries now 24 st).countP
               (fun q => hourFloor q.timestamp == hourFloor now - (i : Int) * 3600) }
            : HourBucket))).reverse := rfl
  refine ⟨?_, ?_, ?_, ?_, ?_, ?_⟩
  · rw [hhv]
    simp
  · rw [hhv, List.map_reverse, List.map_map]
    rfl
  · rw [hhv, List.pairwise_reverse, List.pairwise_map]
    apply (List.pairwise_lt_range 24).imp
    intro i j hij
    simp only
    omega
  · rw [List.all_eq_true]
    intro h hmem
    rw [hhv, List.map_reverse, List.mem_reverse, List.map_map, List.mem_map] at hmem
    obtain ⟨i, _, rfl⟩ := hmem
    simp only [Function.comp]
    have h1 := hourFloor_mod now
    rw [decide_eq_true_iff]
    omega
  · rw [List.all_eq_true]
    intro b hmem
    rw [hhv, List.mem_reverse, List.mem_map] at hmem
    obtain ⟨i, _, rfl⟩ := hmem
    simp
  · rw [hhv, List.map_reverse, List.sum_reverse, List.map_map]
    have hsum : ((List.range 24).map (fun (i : Nat) => (get_recent_queries now 24 st).countP
        (fun q => hourFloor q.timestamp == hourFloor now - (i : Int) * 3600))).sum
        = (get_recent_queries now 24 st).countP
            (fun q => decide (hourFloor now - 23 * 3600 ≤ hourFloor q.timestamp)
              && decide (hourFloor q.timestamp ≤ hourFloor now)) :=
      countP_buckets (hourFloor now) (hourFloor_mod now) _
    rw [show ((List.range 24).map ((fun b : HourBucket => b.count) ∘ (fun (i : Nat) =>
        ({ hour := hourFloor now - (i : Int) * 3600
           count := (get_recent_queries now 24 st).countP
             (fun q => hourFloor q.timestamp == hourFloor now - (i : Int) * 3600) }
          : HourBucket)))).sum
        = ((List.range 24).map (fun (i : Nat) => (get_recent_queries now 24 st).countP
            (fun q => hourFloor q.timestamp == hourFloor now - (i : Int) * 3600))).sum from rfl]
    rw [hsum, get_recent_queries, List.countP_filter]

/-- C5 counterexample: `c5text` contains the technical phrase `app is` and
no billing phrase, yet the classifier returns `billing` — accumulated
billing keyword hits (weight 1 each) overcome the phrase weight, so phrase
presence alone does not determine the intent. -/
theorem c5_counterexample :
    (Orch.technical_phrases.any (fun p => hasSub (lowr c5text) p)) = true
    ∧ (Orch.billing_phrases.all (fun p => hasSub (lowr c5text) p = false)) = true
    ∧ Orch.classify_intent c5text = .billing := by
  decide

/-- C5 as amended: a query containing at least one technical phrase and
matching no billing phrase and also no billing keyword is classified
`technical`; symmetrically, a query containing a billing phrase and
matching no technical phrase and no technical keyword is classified
`billing`.  (The original claim omitted the keyword conditions; the
counterexample shows they are necessary.) -/
theorem c5_lexicon_dominance (query : Str) :
    ((Orch.technical_phrases.any (fun p => hasSub (lowr query) p) = true) →
     (∀ p ∈ Orch.billing_phrases, hasSub (lowr query) p = false) →
     (∀ p ∈ Orch.billing_keywords, hasSub (lowr query) p = false) →
     Orch.classify_intent query = .technical) ∧
    ((Orch.billing_phrases.any (fun p => hasSub (lowr query) p) = true) →
     (∀ p ∈ Orch.technical_phrases, hasSub (lowr query) p = false) →
     (∀ p ∈ Orch.technical_keywords, hasSub (lowr query) p = false) →
     Orch.classify_intent query = .billing) := by
  constructor
  · intro ht hbp hbk
    have hb0 : Orch.billingScore (lowr query) = 0 := by
      rw [Orch.billingScore, hits_eq_zero hbp, hits_eq_zero hbk,
        comboBonus_zero (by decide) hbk]
    have ht5 : 5 ≤ Orch.technicalScore (lowr query) := by
      have := hits_pos ht
      rw [Orch.technicalScore]
      omega
    rw [Orch.classify_intent, if_pos (by omega)]
  · intro hb htp htk
    have ht0 : Orch.technicalScore (lowr query) = 0 := by
      rw [Orch.technicalScore, hits_eq_zero htp, hits_eq_zero htk,
        comboBonus_zero (by decide) htk]
    have hb5 : 5 ≤ Orch.billingScore (lowr query) := by
      have := hits_pos hb
      rw [Orch.billingScore]
      omega
    rw [Orch.classify_intent, if_neg (by omega), if_pos (by omega)]

/-- Witness for C5 at two concrete queries. -/
theorem c5_witness :
    Orch.classify_intent ("cannot log".data) = .technical
    ∧ Orch.classify_intent ("charged twice".data) = .billing := by
  constructor
  · exact (c5_lexicon_dominance ("cannot log".data)).1 (by decide) (by decide) (by decide)
  · exact (c5_lexicon_dominance ("charged twice".data)).2 (by decide) (by decide) (by decide)

/-- C6: `retrieve_context` returns at most `top_k` documents; an empty
knowledge base or a failed embedding yields `[]` (never an error); and the
result is the image of the `(index, similarity)` pairs sorted so that a
strictly greater similarity comes first, with equal similarities kept in
original document order; every returned pair carries the similarity of its
own in-range index. -/
theorem c6_retrieval_ordering (sim : Option (Nat → ℚ)) (f : Nat → ℚ)
    (kb : List Doc) (top_k : Nat) :
    (retrieve_context sim kb top_k).length ≤ top_k
    ∧ retrieve_context sim [] top_k = []
    ∧ retrieve_context none kb top_k = []
    ∧ retrieve_context (some f) kb top_k
        = (retrievedPairs f kb top_k).map (fun p => kb.getD p.1 default)
    ∧ List.Pairwise (fun a b : Nat × ℚ => b.2 < a.2 ∨ (a.2 = b.2 ∧ a.1 < b.1))
        (retrievedPairs f kb top_k)
    ∧ (retrievedPairs f kb top_k).all
        (fun p => decide (p.2 = f p.1) && decide (p.1 < kb.length)) = true := by
  refine ⟨?_, ?_, ?_, ?_, ?_, ?_⟩
  · rw [retrieve_context.eq_def]
    split
    · simp
    · match sim with
      | none => simp
      | some f =>
        simp only [List.length_map]
        exact List.length_take_le _ _
  · rw [retrieve_context.eq_def]
    simp
  · rw [retrieve_context.eq_def]
    split <;> simp
  · by_cases hkb : kb = []
    · subst hkb
      rw [retrieve_context.eq_def, retrievedPairs]
      simp
    · rw [retrieve_context.eq_def, if_neg hkb, retrievedPairs]
  · have hsorted : List.Pairwise simKey
        ((((List.range kb.length).map (fun i => (i, f i))).insertionSort simKey)) :=
      List.sorted_insertionSort simKey _
    have hperm := List.perm_insertionSort simKey
      ((List.range kb.length).map (fun i => (i, f i)))
    have hfst : (((List.range kb.length).map (fun i => (i, f i))).map Prod.fst)
        = List.range kb.length := by
      rw [List.map_map]
      simp [Function.comp_def]
    have hnodup : (((List.range kb.length).map (fun i => (i, f i))).insertionSort
        simKey).Pairwise (fun a b => a.1 ≠ b.1) := by
      have h1 : ((((List.range kb.length).map (fun i => (i, f i))).insertionSort simKey).map
          Prod.fst).Nodup := by
        rw [(hperm.map Prod.fst).nodup_iff, hfst]
        exact List.nodup_range _
      rw [List.Nodup, List.pairwise_map] at h1
      exact h1
    have himp : ∀ {a b : Nat × ℚ}, (simKey a b ∧ a.1 ≠ b.1) →
        (b.2 < a.2 ∨ (a.2 = b.2 ∧ a.1 < b.1)) := by
      intro a b h
      rcases h with ⟨hk, hne⟩
      rw [simKey] at hk
      rcases hk with h | ⟨he, hle⟩
      · exact Or.inl h
      · exact Or.inr ⟨he, lt_of_le_of_ne hle hne⟩
    exact ((hsorted.and hnodup).imp himp).sublist (List.take_sublist _ _)
  · rw [List.all_eq_true]
    intro p hp
    have hp2 : p ∈ ((List.range kb.length).map (fun i => (i, f i))).insertionSort simKey :=
      (List.take_sublist _ _).mem hp
    have hp3 : p ∈ (List.range kb.length).map (fun i => (i, f i)) :=
      (List.perm_insertionSort simKey _).mem_iff.mp hp2
    rcases List.mem_map.mp hp3 with ⟨i, hi, rfl⟩
    simp [List.mem_range.mp hi]

/-- C7 counterexample: a fault right after the history append (fault point
1) returns normally but leaves the record in the history with
`total_queries` not incremented — a partially-applied update, unlike the
fault-free run. -/
theorem c7_counterexample :
    (logQueryUpTo 1 (argT 1 0) initState).query_history.length = 1
    ∧ (logQueryUpTo 1 (argT 1 0) initState).total_queries = 0
    ∧ (log_query (argT 1 0) initState).total_queries = 1 := by
  decide

/-- C7 as amended: a fault at any step boundary of `log_query` or
`log_feedback` does not propagate — the call returns the state with exactly
the preceding updates kept — and can never break the 10000-record history
bound, change `total_queries` by more than one, or leave more than one
appended feedback record; a fault in the final recomputation step
(`log_query` point 5 or later, `log_feedback` point 2) leaves every
ingestion update fully applied.  A mid-call fault can, however, leave a
partially-applied update, which is the deviation from the original
claim. -/
theorem c7_fault_model (k j : Nat) (a : LogQueryArgs) (b : FeedbackArgs)
    (st : AnalyticsState) (h : st.query_history.length ≤ 10000) :
    (logQueryUpTo k a st).query_history.length ≤ 10000
    ∧ ((logQueryUpTo k a st).total_queries = st.total_queries
        ∨ (logQueryUpTo k a st).total_queries = st.total_queries + 1)
    ∧ (5 ≤ k →
        (logQueryUpTo k a st).query_history = (log_query a st).query_history
        ∧ (logQueryUpTo k a st).total_queries = (log_query a st).total_queries
        ∧ (logQueryUpTo k a st).agent_distribution = (log_query a st).agent_distribution
        ∧ (logQueryUpTo k a st).agent_metrics = (log_query a st).agent_metrics
        ∧ (logQueryUpTo k a st).session_data = (log_query a st).session_data
        ∧ (logQueryUpTo k a st).total_sessions = (log_query a st).total_sessions
        ∧ (logQueryUpTo k a st).feedback_data = (log_query a st).feedback_data
        ∧ (logQueryUpTo k a st).satisfaction_score = (log_query a st).satisfaction_score)
    ∧ ((logFeedbackUpTo j b st).feedback_data = st.feedback_data
        ∨ (logFeedbackUpTo j b st).feedback_data = st.feedback_data ++ [mkFeedback b])
    ∧ (2 ≤ j → logFeedbackUpTo j b st = log_feedback b st) := by
  have hfb : ((logFeedbackUpTo j b st).feedback_data = st.feedback_data
      ∨ (logFeedbackUpTo j b st).feedback_data = st.feedback_data ++ [mkFeedback b])
      ∧ (2 ≤ j → logFeedbackUpTo j b st = log_feedback b st) := by
    match j with
    | 0 => exact ⟨Or.inl rfl, fun hj => absurd hj (by decide)⟩
    | 1 => exact ⟨Or.inr rfl, fun hj => absurd hj (by decide)⟩
    | (m+2) =>
      have e : logFeedbackUpTo (m+2) b st = log_feedback b st := by
        rw [logFeedbackUpTo, List.take_of_length_le (by simp [logFeedbackSteps])]
        rfl
      rw [e]
      exact ⟨Or.inr (lf_fb b st), fun _ => rfl⟩
  have hlen : (dequeAppend 10000 st.query_history (mkQueryData a)).length ≤ 10000 := by
    rw [dequeAppend_length]
    omega
  have hq : (logQueryUpTo k a st).query_history.length ≤ 10000
      ∧ ((logQueryUpTo k a st).total_queries = st.total_queries
          ∨ (logQueryUpTo k a st).total_queries = st.total_queries + 1)
      ∧ (5 ≤ k →
          (logQueryUpTo k a st).query_history = (log_query a st).query_history
          ∧ (logQueryUpTo k a st).total_queries = (log_query a st).total_queries
          ∧ (logQueryUpTo k a st).agent_distribution = (log_query a st).agent_distribution
          ∧ (logQueryUpTo k a st).agent_metrics = (log_query a st).agent_metrics
          ∧ (logQueryUpTo k a st).session_data = (log_query a st).session_data
          ∧ (logQueryUpTo k a st).total_sessions = (log_query a st).total_sessions
          ∧ (logQueryUpTo k a st).feedback_data = (log_query a st).feedback_data
          ∧ (logQueryUpTo k a st).satisfaction_score
              = (log_query a st).satisfaction_score) := by
    match k with
    | 0 => exact ⟨h, Or.inl rfl, fun hk => absurd hk (by decide)⟩
    | 1 => exact ⟨hlen, Or.inl rfl, fun hk => absurd hk (by decide)⟩
    | 2 => exact ⟨hlen, Or.inr rfl, fun hk => absurd hk (by decide)⟩
    | 3 => exact ⟨hlen, Or.inr rfl, fun hk => absurd hk (by decide)⟩
    | 4 => exact ⟨hlen, Or.inr rfl, fun hk => absurd hk (by decide)⟩
    | 5 => exact ⟨hlen, Or.inr rfl, fun _ => ⟨rfl, rfl, rfl, rfl, rfl, rfl, rfl, rfl⟩⟩
    | (n+6) =>
      have e : logQueryUpTo (n+6) a st = log_query a st := by
        rw [logQueryUpTo, List.take_of_length_le (by simp [logQuerySteps])]
        rfl
      rw [e]
      exact ⟨hlen, Or.inr rfl, fun _ => ⟨rfl, rfl, rfl, rfl, rfl, rfl, rfl, rfl⟩⟩
  exact ⟨hq.1, hq.2.1, hq.2.2, hfb.1, hfb.2⟩

/-- Witness for C7 at fault point 3 from the fresh state. -/
theorem c7_witness :
    initState.query_history.length ≤ 10000
    ∧ ((logQueryUpTo 3 (argT 1 0) initState).total_queries = initState.total_queries
        ∨ (logQueryUpTo 3 (argT 1 0) initState).total_queries
            = initState.total_queries + 1) :=
  ⟨by decide, (c7_fault_model 3 1 (argT 1 0) badFeedback initState (by decide)).2.1⟩

/-- C8 counterexample: `log_feedback` stores the out-of-range rating 7
without rejecting or clamping it and folds it into the satisfaction mean,
which becomes 7 — no validation of the `[1, 5]` range exists. -/
theorem c8_counterexample :
    (log_feedback badFeedback initState).feedback_data = [mkFeedback badFeedback]
    ∧ (mkFeedback badFeedback).rating = 7
    ∧ ¬((1:Int) ≤ 7 ∧ (7:Int) ≤ 5)
    ∧ (log_feedback badFeedback initState).satisfaction_score = 7 := by
  refine ⟨?_, rfl, by omega, ?_⟩
  · rw [lf_fb]
    rfl
  · rw [lf_sat]
    show mean [((7:Int) : ℚ)] = 7
    rw [mean]
    simp [List.sum_cons]

/-- C8 as amended: `log_feedback` performs no range validation — every
rating is stored — and after every non-empty sequence of calls the
`satisfaction_score` equals the arithmetic mean of all stored ratings;
before the first feedback it retains its initial value 4.6 rather than a
mean of an empty set.  (The original claim asserted validation and an
all-times mean.) -/
theorem c8_feedback_mean (fs : List FeedbackArgs) :
    (applyFeedbacks fs initState).feedback_data = fs.map mkFeedback
    ∧ (applyFeedbacks fs initState).satisfaction_score
        = (if fs = [] then 23/5 else mean (fs.map (fun a => (a.rating : ℚ)))) := by
  obtain ⟨hF, hS, _⟩ := applyFeedbacks_spec initState fs
  constructor
  · simpa using hF
  · rw [hS]
    simp only [show initState.feedback_data = [] from rfl, List.nil_append]
    split_ifs
    · rfl
    · rw [List.map_map]
      rfl

/-- C9 counterexample: the billing variant's empty-context reply is not a
fixed text — it interpolates the customer id, so two customers get
different fallback replies. -/
theorem c9_counterexample :
    (billing_handle_query ("q".data) [] ("custA".data) ("medium".data)).response
      ≠ (billing_handle_query ("q".data) [] ("custB".data) ("medium".data)).response := by
  decide

/-- C9 as amended: routing is the fixed mapping `route_agent`; the technical
variant has confidence 0.85 ∈ [0.85, 0.90] and escalates iff the priority is
`urgent`; the billing variant has confidence 0.90 ∈ [0.85, 0.90] and
escalates iff the query contains `refund` or `cancel` case-insensitively;
the general variant has confidence 0.75 and escalates iff the priority is
`high` or `urgent`; with non-empty context every variant splices the
context document contents verbatim into its reply; with empty context the
technical and general variants use fixed fallback texts while the billing
fallback embeds the customer id (the only deviation from the original
claim). -/
theorem c9_agent_variants (query : Str) (context : List Doc)
    (customer_id : Str) (priority : Str) :
    (route_agent .technical = technical_handle_query
      ∧ route_agent .billing = billing_handle_query
      ∧ route_agent .general = general_handle_query)
    ∧ ((85:ℚ)/100 ≤ (technical_handle_query query context customer_id priority).confidence
      ∧ (technical_handle_query query context customer_id priority).confidence ≤ 90/100
      ∧ (technical_handle_query query context customer_id priority).escalate
          = (priority == ("urgent".data))
      ∧ (context ≠ [] →
          (technical_handle_query query context customer_id priority).response
            = techCtxPre ++ joinContents context ++ techCtxSuf
          ∧ joinContents context
              <:+: (technical_handle_query query context customer_id priority).response)
      ∧ (context = [] →
          (technical_handle_query query context customer_id priority).response = techFallback))
    ∧ ((85:ℚ)/100 ≤ (billing_handle_query query context customer_id priority).confidence
      ∧ (billing_handle_query query context customer_id priority).confidence ≤ 90/100
      ∧ (billing_handle_query query context customer_id priority).escalate
          = (hasSub (lowr query) ("refund".data) || hasSub (lowr query) ("cancel".data))
      ∧ (context ≠ [] →
          (billing_handle_query query context customer_id priority).response
            = billCtxPre ++ joinContents context ++ billCtxSuf
          ∧ joinContents context
              <:+: (billing_handle_query query context customer_id priority).response)
      ∧ (context = [] →
          (billing_handle_query query context customer_id priority).response
            = billFallbackPre ++ customer_id ++ billFallbackSuf))
    ∧ ((general_handle_query query context customer_id priority).confidence = 75/100
      ∧ (general_handle_query query context customer_id priority).escalate
          = (priority == ("high".data) || priority == ("urgent".data))
      ∧ (context ≠ [] →
          (general_handle_query query context customer_id priority).response
            = genCtxPre ++ joinContents context ++ genCtxSuf
          ∧ joinContents context
              <:+: (general_handle_query query context customer_id priority).response)
      ∧ (context = [] →
          (general_handle_query query context customer_id priority).response = genFallback)) := by
  have hemp : context ≠ [] → context.isEmpty = false := by
    intro h
    cases context with
    | nil => exact absurd rfl h
    | cons d ds => rfl
  refine ⟨⟨rfl, rfl, rfl⟩,
    ⟨le_refl ((85:ℚ)/100), (by norm_num : (85:ℚ)/100 ≤ 90/100), rfl, ?_, ?_⟩,
    ⟨(by norm_num : (85:ℚ)/100 ≤ 90/100), le_refl ((90:ℚ)/100), rfl, ?_, ?_⟩,
    ⟨rfl, rfl, ?_, ?_⟩⟩
  · intro h
    have e : (technical_handle_query query context customer_id priority).response
        = techCtxPre ++ joinContents context ++ techCtxSuf := by
      rw [technical_handle_query]
      simp only [hemp h, Bool.false_eq_true, if_false]
    exact ⟨e, e ▸ ⟨techCtxPre, techCtxSuf, rfl⟩⟩
  · intro h
    rw [technical_handle_query]
    simp only [h, List.isEmpty_nil, if_true]
  · intro h
    have e : (billing_handle_query query context customer_id priority).response
        = billCtxPre ++ joinContents context ++ billCtxSuf := by
      rw [billing_handle_query]
      simp only [hemp h, Bool.false_eq_true, if_false]
    exact ⟨e, e ▸ ⟨billCtxPre, billCtxSuf, rfl⟩⟩
  · intro h
    rw [billing_handle_query]
    simp only [h, List.isEmpty_nil, if_true]
  · intro h
    have e : (general_handle_query query context customer_id priority).response
        = genCtxPre ++ joinContents context ++ genCtxSuf := by
      rw [general_handle_query]
      simp only [hemp h, Bool.false_eq_true, if_false]
    exact ⟨e, e ▸ ⟨genCtxPre, genCtxSuf, rfl⟩⟩
  · intro h
    rw [general_handle_query]
    simp only [h, List.isEmpty_nil, if_true]

/-- Witness for C9: concrete context-splicing and billing-fallback
instances. -/
theorem c9_witness :
    (technical_handle_query ("q".data) [docLogin] ("c".data) ("urgent".data)).response
      = techCtxPre ++ joinContents [docLogin] ++ techCtxSuf
    ∧ (billing_handle_query ("q".data) [] ("c".data) ("low".data)).response
      = billFallbackPre ++ ("c".data) ++ billFallbackSuf :=
  ⟨((c9_agent_variants ("q".data) [docLogin] ("c".data) ("urgent".data)).2.1.2.2.2.1
      (by simp)).1,
   (c9_agent_variants ("q".data) [] ("c".data) ("low".data)).2.2.1.2.2.2.2 rfl⟩

/-- C10: immediately after the startup seeding and before any logging, the
analytics snapshot reports the sample values 1247 / 423 / 1.2 / 4.6 and the
distribution 45 / 30 / 25; every later `log_query` increments from these
seeds, so after `N` logged queries the reported `total_queries` is
`1247 + N`. -/
theorem c10_seeded_metrics (now : Nat) (rs : List LogQueryArgs) :
    (get_analytics now seededState).total_queries = 1247
    ∧ (get_analytics now seededState).total_sessions = 423
    ∧ (get_analytics now seededState).avg_response_time = 6/5
    ∧ (get_analytics now seededState).satisfaction_score = 23/5
    ∧ (get_analytics now seededState).agent_distribution .technical = 45
    ∧ (get_analytics now seededState).agent_distribution .billing = 30
    ∧ (get_analytics now seededState).agent_distribution .general = 25
    ∧ (get_analytics now (applyQueries rs seededState)).total_queries = 1247 + rs.length := by
  obtain ⟨_, hQ, _⟩ := applyQueries_spec seededState rfl (fun _ => rfl) (fun _ => rfl) rs
  exact ⟨rfl, rfl, rfl, rfl, rfl, rfl, rfl, hQ⟩
